import Mathlib

set_option linter.unusedVariables false

/-! Shallow embedding of `src/main.rs` of teamspeak-autochannel: a ServerQuery
client that logs in and selects a server over a telnet-style connection.
Response buffers are modelled as valid text (`String`), so the UTF-8 decoding
step of `decode_result` is elided; every property below concerns valid-text
buffers. All code is modelled with release semantics: `debug_assert!` checks
are compiled out. -/

/-- Mirrors the Rust struct `QueryStatus` with fields `id: i32`, `msg: String`. -/
structure QueryStatus where
  id : Int
  msg : String
deriving DecidableEq

/-- Mirrors `QueryStatus::is_ok`: status code 0 means success. -/
def QueryStatus.is_ok (s : QueryStatus) : Bool := s.id == 0

/-- The distinct `anyhow!` error construction sites of the program, one
constructor per site, carrying the data interpolated into the message. -/
inductive RErr where
  | splitError (s : String)
  | parseError
  | nonOkStatus (id : Int) (msg : String)
  | connectError
  | readContentError (inner : RErr)
  | readIOError
  | eventError
  | unknownEvent
  | writeIOError
  | noResponse
  | noStatusLine
  | loginFailed (st : QueryStatus)
  | sidParseError
  | selectFailed (st : QueryStatus)
deriving DecidableEq

/-- Result of running a fallible piece of the Rust code: a value, an
`anyhow` error, or a panic (from `unwrap`). -/
inductive RResult (α : Type) where
  | panic
  | err (e : RErr)
  | ok (a : α)
deriving DecidableEq

/-- Rust `str::split_once` with a `char` pattern: split at the first
occurrence of `c`, the separator removed. -/
def splitOnceCh (c : Char) : List Char → Option (List Char × List Char)
  | [] => none
  | x :: xs =>
    if x = c then some ([], xs)
    else
      match splitOnceCh c xs with
      | none => none
      | some (a, b) => some (x :: a, b)

/-- Rust `str::split_once` with a `&str` pattern: split at the first
occurrence of `pat`, the separator removed. -/
def splitOnceSub (pat : List Char) : List Char → Option (List Char × List Char)
  | [] => if pat.isEmpty then some ([], []) else none
  | x :: xs =>
    if pat.isPrefixOf (x :: xs) then some ([], (x :: xs).drop pat.length)
    else
      match splitOnceSub pat xs with
      | none => none
      | some (a, b) => some (x :: a, b)

/-- Numeric value of an ascii digit, `none` otherwise. -/
def digitVal (c : Char) : Option Nat :=
  if '0' ≤ c ∧ c ≤ '9' then some (c.toNat - '0'.toNat) else none

def parseDigitsAux : List Char → Nat → Option Nat
  | [], acc => some acc
  | c :: cs, acc =>
    match digitVal c with
    | none => none
    | some d => parseDigitsAux cs (acc * 10 + d)

/-- Value of a nonempty all-digit string, `none` otherwise. -/
def parseDigits : List Char → Option Nat
  | [] => none
  | l => parseDigitsAux l 0

/-- Rust `i32::from_str` as used by `"...".parse::<i32>()`: an optional sign
followed by one or more ascii digits, with the result inside the i32 range. -/
def parseI32L (l : List Char) : Option Int :=
  match l with
  | [] => none
  | c :: rest =>
    if c = '+' then
      (parseDigits rest).bind fun n => if n ≤ 2147483647 then some ((n : Int)) else none
    else if c = '-' then
      (parseDigits rest).bind fun n => if n ≤ 2147483648 then some (-(n : Int)) else none
    else
      (parseDigits (c :: rest)).bind fun n => if n ≤ 2147483647 then some ((n : Int)) else none

def parseI32 (s : String) : Option Int := parseI32L s.data

/-- Rust `str::split_inclusive` with pattern `'\n'`, on a char list. -/
def splitInclusiveNL : List Char → List (List Char)
  | [] => []
  | c :: cs =>
    if c = '\n' then [c] :: splitInclusiveNL cs
    else
      match splitInclusiveNL cs with
      | [] => [[c]]
      | l :: ls => (c :: l) :: ls

/-- Strip one trailing newline, and one carriage return just before it. -/
def stripLineEnd (l : List Char) : List Char :=
  if l.getLast? = some '\n' then
    if l.dropLast.getLast? = some '\r' then l.dropLast.dropLast else l.dropLast
  else l

/-- Rust `str::lines`: split after each newline, then strip the line
endings; a final chunk without a newline is kept as-is. -/
def rustLines (s : String) : List String :=
  (splitInclusiveNL s.data).map fun l => String.mk (stripLineEnd l)

/-- Rust `str::starts_with`. -/
def starts_with (s p : String) : Bool := p.data.isPrefixOf s.data

/-- The literal status-line marker the program scans for. -/
def errorTok : String := "error "

/-- Mirrors `impl TryFrom<&str> for QueryStatus` under release semantics:
the two `debug_assert!` checks are compiled out, so a field without an
equals sign reaches `split_once` followed by `unwrap`, which panics. -/
def tryFromList (value : List Char) : RResult QueryStatus :=
  match splitOnceSub errorTok.data value with
  | none => .err (.splitError (String.mk value))
  | some (_, line) =>
    match splitOnceCh ' ' line with
    | none => .err (.splitError (String.mk line))
    | some (idf, msgf) =>
      match splitOnceCh '=' idf with
      | none => .panic
      | some (_, idv) =>
        match splitOnceCh '=' msgf with
        | none => .panic
        | some (_, msgv) =>
          match parseI32 (String.mk idv) with
          | none => .err .parseError
          | some n => .ok ⟨n, String.mk msgv⟩

/-- Loop body of `TelnetConn::decode_result`: scan the lines for the first
one starting with `error `, parse it, and turn a non-ok status into an
error; with no such line the result is `ok none`. -/
def scanLines : List String → RResult (Option QueryStatus)
  | [] => .ok none
  | line :: rest =>
    if starts_with line errorTok then
      match tryFromList line.data with
      | .panic => .panic
      | .err e => .err e
      | .ok status =>
        if status.is_ok then .ok (some status)
        else .err (.nonOkStatus status.id status.msg)
    else scanLines rest

/-- Mirrors `TelnetConn::decode_result` on a valid-text buffer. -/
def decode_result (content : String) : RResult (Option QueryStatus) :=
  scanLines (rustLines content)

/-- The events the telnet crate can deliver from `read_timeout`; the channel
itself may also fail with an I/O error, modelled by `Except.error`. -/
inductive TelnetEvent where
  | dataEv (d : String)
  | timedOut
  | noData
  | errorEv
  | otherEv
deriving DecidableEq

/-- Mirrors `TelnetConn::read_data`: the oracle `r` gives the transport's
reply to a bounded read with the given timeout in seconds. -/
def read_data (r : Nat → Except Unit TelnetEvent) (timeout : Nat) :
    RResult (Option String) :=
  match r timeout with
  | .error _ => .err .readIOError
  | .ok (.dataEv d) => .ok (some d)
  | .ok .timedOut => .ok none
  | .ok .noData => .ok none
  | .ok .errorEv => .err .eventError
  | .ok .otherEv => .err .unknownEvent

/-- Mirrors `TelnetConn::write_data`: `w` is the transport's reply to the
write (byte count accepted, or an I/O error). A short write is only logged;
the returned flag records whether that `error!` log fired. -/
def write_data (payload : String) (w : Except Unit Nat) : RResult Unit × Bool :=
  match w with
  | .error _ => (.err .writeIOError, false)
  | .ok size => (.ok (), if size = payload.utf8ByteSize then false else true)

/-- Mirrors `TelnetConn::write_and_read`: write the payload, then one
bounded read; a read that yields no data becomes an error. -/
def write_and_read (payload : String) (w : Except Unit Nat)
    (r : Nat → Except Unit TelnetEvent) (timeout : Nat) : RResult String :=
  match (write_data payload w).1 with
  | .panic => .panic
  | .err e => .err e
  | .ok _ =>
    match read_data r timeout with
    | .panic => .panic
    | .err e => .err e
    | .ok none => .err .noResponse
    | .ok (some d) => .ok d

/-- Mirrors `TelnetConn::connect`: open the channel (`c` is the transport's
reply), then perform one banner read with a 1-second bound; a missing banner
is only warned about — the returned flag records that `warn!` log. -/
def connect (c : Except Unit Unit) (r : Nat → Except Unit TelnetEvent) :
    RResult Unit × Bool :=
  match c with
  | .error _ => (.err .connectError, false)
  | .ok _ =>
    match read_data r 1 with
    | .panic => (.panic, false)
    | .err e => (.err (.readContentError e), false)
    | .ok none => (.ok (), true)
    | .ok (some _) => (.ok (), false)

/-- The command line built by `TelnetConn::login`. -/
def login_payload (user password : String) : String :=
  "login " ++ user ++ " " ++ password ++ "\n\r"

/-- The command line built by `TelnetConn::select_server`. -/
def select_payload (server_id : Int) : String :=
  "use " ++ toString server_id ++ "\n\r"

/-- Shared tail of `login` and `select_server`: decode the exchanged bytes
and require a status line. -/
def require_status (res : RResult String) : RResult QueryStatus :=
  match res with
  | .panic => .panic
  | .err e => .err e
  | .ok data =>
    match decode_result data with
    | .panic => .panic
    | .err e => .err e
    | .ok none => .err .noStatusLine
    | .ok (some st) => .ok st

/-- Mirrors `TelnetConn::login`: exchange the login command with a 2-second
timeout and decode the response. -/
def login (user password : String) (w : Except Unit Nat)
    (r : Nat → Except Unit TelnetEvent) : RResult QueryStatus :=
  require_status (write_and_read (login_payload user password) w r 2)

/-- Mirrors `TelnetConn::select_server`: exchange the use command with a
2-second timeout and decode the response. -/
def select_server (server_id : Int) (w : Except Unit Nat)
    (r : Nat → Except Unit TelnetEvent) : RResult QueryStatus :=
  require_status (write_and_read (select_payload server_id) w r 2)

/-- The transport's replies for one run: the connect result, and the write
result and read oracle of each of the three reads the program can make. -/
structure NetInputs where
  connectRes : Except Unit Unit
  bannerRead : Nat → Except Unit TelnetEvent
  loginWrite : Except Unit Nat
  loginRead : Nat → Except Unit TelnetEvent
  selectWrite : Except Unit Nat
  selectRead : Nat → Except Unit TelnetEvent

/-- Mirrors `staff`: connect, login, check the status, parse the server id,
select the server, check the status. -/
def staff (user password sid : String) (inp : NetInputs) : RResult Unit :=
  match (connect inp.connectRes inp.bannerRead).1 with
  | .panic => .panic
  | .err e => .err e
  | .ok _ =>
    match login user password inp.loginWrite inp.loginRead with
    | .panic => .panic
    | .err e => .err e
    | .ok status =>
      if status.is_ok then
        match parseI32 sid with
        | none => .err .sidParseError
        | some sidv =>
          match select_server sidv inp.selectWrite inp.selectRead with
          | .panic => .panic
          | .err e => .err e
          | .ok status2 =>
            if status2.is_ok then .ok ()
            else .err (.selectFailed status2)
      else .err (.loginFailed status)

/-- Classifier for the two errors only `staff` itself can construct. -/
def staff_only : RErr → Bool
  | .loginFailed _ => true
  | .selectFailed _ => true
  | _ => false

/-- A concrete transport trace: the connection opens, the banner read times
out, and the login exchange delivers a non-success status line. -/
def nonSuccessInputs : NetInputs where
  connectRes := Except.ok ()
  bannerRead := fun _ => Except.ok .timedOut
  loginWrite := Except.ok 26
  loginRead := fun _ => Except.ok (.dataEv ("error id=520 msg=bad"))
  selectWrite := Except.ok 7
  selectRead := fun _ => Except.ok .timedOut

theorem string_data_append (a b : String) : (a ++ b).data = a.data ++ b.data := by
  cases a
  cases b
  rfl

theorem isPrefixOf_append_self (p r : List Char) : p.isPrefixOf (p ++ r) = true := by
  induction p with
  | nil => simp [List.isPrefixOf]
  | cons c cs ih => simp [List.isPrefixOf, ih]

theorem splitOnceSub_self (p r : List Char) (hp : p ≠ []) :
    splitOnceSub p (p ++ r) = some ([], r) := by
  cases p with
  | nil => exact absurd rfl hp
  | cons c cs =>
    have h1 := isPrefixOf_append_self (c :: cs) r
    have h2 := List.drop_left (c :: cs) r
    rw [List.cons_append] at h1 h2
    rw [List.cons_append, splitOnceSub, if_pos h1, h2]

theorem splitOnceCh_append (c : Char) (a b : List Char) (ha : c ∉ a) :
    splitOnceCh c (a ++ c :: b) = some (a, b) := by
  induction a with
  | nil => simp [splitOnceCh]
  | cons x xs ih =>
    have hx : ¬(x = c) := fun h => ha (h ▸ List.mem_cons_self x xs)
    have ih2 := ih (fun h => ha (List.mem_cons_of_mem x h))
    simp [splitOnceCh, hx, ih2]

theorem digitVal_bounds (c : Char) (d : Nat) (h : digitVal c = some d) :
    '0' ≤ c ∧ c ≤ '9' := by
  by_cases hc : '0' ≤ c ∧ c ≤ '9'
  · exact hc
  · simp [digitVal, hc] at h

theorem parseDigitsAux_digits (l : List Char) :
    ∀ (acc n : Nat), parseDigitsAux l acc = some n → ∀ c ∈ l, '0' ≤ c ∧ c ≤ '9' := by
  induction l with
  | nil => intro acc n h c hc; cases hc
  | cons x xs ih =>
    intro acc n h c hc
    rw [parseDigitsAux] at h
    rcases hd : digitVal x with _ | d
    · rw [hd] at h; cases h
    · rw [hd] at h
      rcases List.mem_cons.mp hc with hc1 | hc1
      · exact hc1 ▸ digitVal_bounds x d hd
      · exact ih _ n h c hc1

theorem parseDigits_digits (l : List Char) (n : Nat) (h : parseDigits l = some n) :
    ∀ c ∈ l, '0' ≤ c ∧ c ≤ '9' := by
  cases l with
  | nil => intro c hc; cases hc
  | cons x xs => exact parseDigitsAux_digits (x :: xs) 0 n h

theorem parseI32L_no_space (l : List Char) (N : Int) (h : parseI32L l = some N) :
    ' ' ∉ l := by
  intro hmem
  cases l with
  | nil => cases hmem
  | cons c rest =>
    rw [parseI32L] at h
    by_cases hp : c = '+'
    · rw [if_pos hp] at h
      rcases hd : parseDigits rest with _ | n
      · rw [hd] at h; cases h
      · rcases List.mem_cons.mp hmem with h1 | h1
        · exact absurd (h1.trans hp) (by decide)
        · exact absurd (parseDigits_digits rest n hd ' ' h1) (by decide)
    · by_cases hm : c = '-'
      · rw [if_neg hp, if_pos hm] at h
        rcases hd : parseDigits rest with _ | n
        · rw [hd] at h; cases h
        · rcases List.mem_cons.mp hmem with h1 | h1
          · exact absurd (h1.trans hm) (by decide)
          · exact absurd (parseDigits_digits rest n hd ' ' h1) (by decide)
      · rw [if_neg hp, if_neg hm] at h
        rcases hd : parseDigits (c :: rest) with _ | n
        · rw [hd] at h; cases h
        · exact absurd (parseDigits_digits _ n hd ' ' hmem) (by decide)

theorem statusLine_data (nstr text : String) :
    ("error id=" ++ nstr ++ " msg=" ++ text).data
      = errorTok.data ++ ('i' :: 'd' :: '=' ::
          (nstr.data ++ ' ' :: 'm' :: 's' :: 'g' :: '=' :: text.data)) := by
  simp only [string_data_append, List.append_assoc]
  rfl

theorem tryFromList_wellformed (nstr text : String) (N : Int)
    (hn : parseI32 nstr = some N) :
    tryFromList ("error id=" ++ nstr ++ " msg=" ++ text).data
      = .ok ⟨N, text⟩ := by
  have hsp : ' ' ∉ nstr.data := parseI32L_no_space nstr.data N hn
  have h1 : splitOnceSub errorTok.data
      (errorTok.data ++ ('i' :: 'd' :: '=' ::
        (nstr.data ++ ' ' :: 'm' :: 's' :: 'g' :: '=' :: text.data)))
      = some ([], 'i' :: 'd' :: '=' ::
          (nstr.data ++ ' ' :: 'm' :: 's' :: 'g' :: '=' :: text.data)) :=
    splitOnceSub_self _ _ (by decide)
  have h2 : splitOnceCh ' '
      ('i' :: 'd' :: '=' :: (nstr.data ++ ' ' :: 'm' :: 's' :: 'g' :: '=' :: text.data))
      = some ('i' :: 'd' :: '=' :: nstr.data, 'm' :: 's' :: 'g' :: '=' :: text.data) := by
    have ha : ' ' ∉ ('i' :: 'd' :: '=' :: nstr.data) := by
      intro hx
      rcases List.mem_cons.mp hx with h | h
      · exact absurd h (by decide)
      rcases List.mem_cons.mp h with h | h
      · exact absurd h (by decide)
      rcases List.mem_cons.mp h with h | h
      · exact absurd h (by decide)
      · exact hsp h
    have := splitOnceCh_append ' ' ('i' :: 'd' :: '=' :: nstr.data)
      ('m' :: 's' :: 'g' :: '=' :: text.data) ha
    simpa using this
  have h3 : splitOnceCh '=' ('i' :: 'd' :: '=' :: nstr.data)
      = some (['i', 'd'], nstr.data) := by
    have := splitOnceCh_append '=' ['i', 'd'] nstr.data (by decide)
    simpa using this
  have h4 : splitOnceCh '=' ('m' :: 's' :: 'g' :: '=' :: text.data)
      = some (['m', 's', 'g'], text.data) := by
    have := splitOnceCh_append '=' ['m', 's', 'g'] text.data (by decide)
    simpa using this
  have hn2 : parseI32L nstr.data = some N := hn
  simp only [tryFromList, statusLine_data, h1, h2, h3, h4, parseI32, hn2]

theorem statusLine_starts (nstr text : String) :
    starts_with ("error id=" ++ nstr ++ " msg=" ++ text) errorTok = true := by
  rw [starts_with, statusLine_data]
  exact isPrefixOf_append_self _ _

theorem scanLines_skip (pre rest : List String)
    (hpre : ∀ l ∈ pre, starts_with l errorTok = false) :
    scanLines (pre ++ rest) = scanLines rest := by
  induction pre with
  | nil => rfl
  | cons x xs ih =>
    have hx := hpre x (List.mem_cons_self x xs)
    have ih2 := ih (fun l hl => hpre l (List.mem_cons_of_mem x hl))
    rw [List.cons_append, scanLines, hx]
    simpa using ih2

theorem scanLines_wellformed (nstr text : String) (N : Int) (post : List String)
    (hn : parseI32 nstr = some N) :
    scanLines (("error id=" ++ nstr ++ " msg=" ++ text) :: post)
      = if N = 0 then .ok (some ⟨N, text⟩) else .err (.nonOkStatus N text) := by
  simp only [scanLines, statusLine_starts nstr text, if_true,
    tryFromList_wellformed nstr text N hn, QueryStatus.is_ok]
  by_cases hN : N = 0
  · subst hN; simp
  · simp [hN]

theorem scanLines_ok_some (ls : List String) (st : QueryStatus)
    (h : scanLines ls = .ok (some st)) : st.id = 0 := by
  induction ls with
  | nil => simp [scanLines] at h
  | cons x xs ih =>
    cases hsw : starts_with x errorTok with
    | false =>
      rw [scanLines, hsw] at h
      exact ih (by simpa using h)
    | true =>
      rw [scanLines, hsw] at h
      simp only [if_true] at h
      rcases htf : tryFromList x.data with _ | e | s2 <;> simp only [htf] at h
      · cases h
      · cases h
      · by_cases hok : s2.is_ok = true
        · rw [if_pos hok] at h
          injection h with h2
          injection h2 with h3
          subst h3
          simpa [QueryStatus.is_ok] using hok
        · rw [if_neg hok] at h
          cases h

theorem tryFromList_err_shape (l : List Char) (e : RErr)
    (h : tryFromList l = .err e) : staff_only e = false := by
  unfold tryFromList at h
  rcases h1 : splitOnceSub errorTok.data l with _ | p1 <;> simp only [h1] at h
  · injection h with h2; subst h2; rfl
  · rcases p1 with ⟨a, line⟩
    rcases h2 : splitOnceCh ' ' line with _ | p2 <;> simp only [h2] at h
    · injection h with h3; subst h3; rfl
    · rcases p2 with ⟨idf, msgf⟩
      rcases h3 : splitOnceCh '=' idf with _ | p3 <;> simp only [h3] at h
      · cases h
      · rcases p3 with ⟨a2, idv⟩
        rcases h4 : splitOnceCh '=' msgf with _ | p4 <;> simp only [h4] at h
        · cases h
        · rcases p4 with ⟨a3, msgv⟩
          rcases h5 : parseI32 (String.mk idv) with _ | n <;> simp only [h5] at h
          · injection h with h6; subst h6; rfl
          · cases h

theorem scanLines_err_shape (ls : List String) (e : RErr)
    (h : scanLines ls = .err e) : staff_only e = false := by
  induction ls with
  | nil => simp [scanLines] at h
  | cons x xs ih =>
    cases hsw : starts_with x errorTok with
    | false =>
      rw [scanLines, hsw] at h
      exact ih (by simpa using h)
    | true =>
      rw [scanLines, hsw] at h
      simp only [if_true] at h
      rcases htf : tryFromList x.data with _ | e2 | s2 <;> simp only [htf] at h
      · cases h
      · injection h with h2; subst h2; exact tryFromList_err_shape x.data e2 htf
      · by_cases hok : s2.is_ok = true
        · rw [if_pos hok] at h; cases h
        · rw [if_neg hok] at h; injection h with h2; subst h2; rfl

theorem read_data_err_shape (r : Nat → Except Unit TelnetEvent) (t : Nat) (e : RErr)
    (h : read_data r t = .err e) : staff_only e = false := by
  unfold read_data at h
  rcases hr : r t with _ | ev <;> simp only [hr] at h
  · injection h with h2; subst h2; rfl
  · rcases ev with d | _ | _ | _ | _ <;> simp only [] at h
    · cases h
    · cases h
    · cases h
    · injection h with h2; subst h2; rfl
    · injection h with h2; subst h2; rfl

theorem write_data_err_shape (p : String) (w : Except Unit Nat) (e : RErr)
    (h : (write_data p w).1 = .err e) : staff_only e = false := by
  unfold write_data at h
  rcases w with _ | n <;> simp only [] at h
  · injection h with h2; subst h2; rfl
  · cases h

theorem write_and_read_err_shape (p : String) (w : Except Unit Nat)
    (r : Nat → Except Unit TelnetEvent) (t : Nat) (e : RErr)
    (h : write_and_read p w r t = .err e) : staff_only e = false := by
  unfold write_and_read at h
  rcases h1 : (write_data p w).1 with _ | e1 | u1 <;> simp only [h1] at h
  · cases h
  · injection h with h2; subst h2; exact write_data_err_shape p w e1 h1
  · rcases h2 : read_data r t with _ | e2 | od <;> simp only [h2] at h
    · cases h
    · injection h with h3; subst h3; exact read_data_err_shape r t e2 h2
    · rcases od with _ | d <;> simp only [] at h
      · injection h with h3; subst h3; rfl
      · cases h

theorem require_status_err_shape (res : RResult String) (e : RErr)
    (hres : ∀ e2, res = .err e2 → staff_only e2 = false)
    (h : require_status res = .err e) : staff_only e = false := by
  unfold require_status at h
  rcases res with _ | e1 | data <;> simp only [] at h
  · cases h
  · injection h with h2; subst h2; exact hres e1 rfl
  · rcases hd : decode_result data with _ | e2 | od <;> simp only [hd] at h
    · cases h
    · injection h with h2; subst h2; exact scanLines_err_shape (rustLines data) e2 hd
    · rcases od with _ | st <;> simp only [] at h
      · injection h with h2; subst h2; rfl
      · cases h

theorem require_status_ok_id (res : RResult String) (st : QueryStatus)
    (h : require_status res = .ok st) : st.id = 0 := by
  unfold require_status at h
  rcases res with _ | e1 | data <;> simp only [] at h
  · cases h
  · cases h
  · rcases hd : decode_result data with _ | e2 | od <;> simp only [hd] at h
    · cases h
    · cases h
    · rcases od with _ | st2 <;> simp only [] at h
      · cases h
      · injection h with h2; subst h2; exact scanLines_ok_some (rustLines data) st2 hd

theorem login_err_shape (u p : String) (w : Except Unit Nat)
    (r : Nat → Except Unit TelnetEvent) (e : RErr)
    (h : login u p w r = .err e) : staff_only e = false :=
  require_status_err_shape _ e
    (fun e2 h2 => write_and_read_err_shape (login_payload u p) w r 2 e2 h2) h

theorem select_err_shape (sid : Int) (w : Except Unit Nat)
    (r : Nat → Except Unit TelnetEvent) (e : RErr)
    (h : select_server sid w r = .err e) : staff_only e = false :=
  require_status_err_shape _ e
    (fun e2 h2 => write_and_read_err_shape (select_payload sid) w r 2 e2 h2) h

theorem connect_err_shape (c : Except Unit Unit) (r : Nat → Except Unit TelnetEvent)
    (e : RErr) (h : (connect c r).1 = .err e) : staff_only e = false := by
  unfold connect at h
  rcases c with _ | u1 <;> simp only [] at h
  · injection h with h2; subst h2; rfl
  · rcases hrd : read_data r 1 with _ | e1 | od <;> simp only [hrd] at h
    · cases h
    · injection h with h2; subst h2; rfl
    · rcases od with _ | d <;> simp only [] at h <;> cases h

theorem staff_err_shape (u p sid : String) (inp : NetInputs) (e : RErr)
    (h : staff u p sid inp = .err e) : staff_only e = false := by
  unfold staff at h
  rcases hc : (connect inp.connectRes inp.bannerRead).1 with _ | e1 | u1 <;>
    simp only [hc] at h
  · cases h
  · injection h with h2; subst h2
    exact connect_err_shape inp.connectRes inp.bannerRead e1 hc
  · rcases hl : login u p inp.loginWrite inp.loginRead with _ | e2 | st1 <;>
      simp only [hl] at h
    · cases h
    · injection h with h2; subst h2
      exact login_err_shape u p inp.loginWrite inp.loginRead e2 hl
    · have hid : st1.id = 0 := require_status_ok_id _ st1 hl
      have hok : st1.is_ok = true := by
        simp [QueryStatus.is_ok, hid]
      rw [if_pos hok] at h
      rcases hp : parseI32 sid with _ | sidv <;> simp only [hp] at h
      · injection h with h2; subst h2; rfl
      · rcases hs : select_server sidv inp.selectWrite inp.selectRead with _ | e3 | st2 <;>
          simp only [hs] at h
        · cases h
        · injection h with h2; subst h2
          exact select_err_shape sidv inp.selectWrite inp.selectRead e3 hs
        · have hid2 : st2.id = 0 := require_status_ok_id _ st2 hs
          have hok2 : st2.is_ok = true := by
            simp [QueryStatus.is_ok, hid2]
          rw [if_pos hok2] at h
          cases h

/-- C1 counterexample: on the buffer `error id=1 msg=x` — a well-formed
status line with the nonzero code 1 — `decode_result` does not return
`Some(Status)`; it fails with the non-ok-status error instead. -/
theorem decode_nonzero_not_some :
    decode_result ("error id=1 msg=x") = .err (.nonOkStatus 1 "x")
    ∧ decode_result ("error id=1 msg=x") ≠ .ok (some ⟨1, "x"⟩) := by
  decide

/-- C1 (amended): for every valid-text buffer whose lines contain a
well-formed status line `error id=<N> msg=<text>` — no earlier line starting
with `error ` — the decoder returns `Some(Status{code: N, message: text})`
when N = 0, and fails with the non-ok-status error carrying N and text when
N is nonzero; in both cases the result is independent of the surrounding
lines. -/
theorem decode_embedded_status (buf : String) (pre post : List String)
    (nstr text : String) (N : Int)
    (hbuf : rustLines buf = pre ++ ("error id=" ++ nstr ++ " msg=" ++ text) :: post)
    (hpre : ∀ l ∈ pre, starts_with l errorTok = false)
    (hn : parseI32 nstr = some N) :
    decode_result buf
      = if N = 0 then .ok (some ⟨N, text⟩) else .err (.nonOkStatus N text) := by
  unfold decode_result
  rw [hbuf, scanLines_skip pre _ hpre, scanLines_wellformed nstr text N post hn]

/-- Witness for C1's theorem at a concrete buffer with a surrounding line. -/
theorem decode_embedded_status_witness :
    decode_result ("welcome\nerror id=0 msg=ok")
      = if (0 : Int) = 0 then RResult.ok (some ⟨0, "ok"⟩)
        else RResult.err (.nonOkStatus 0 "ok") :=
  decode_embedded_status ("welcome\nerror id=0 msg=ok") ["welcome"] [] ("0") ("ok") 0
    (by decide) (by decide) (by decide)

/-- C2 counterexample: when the server answers login with the well-formed
non-success status line `error id=520 msg=invalid\sloginname\sor\spassword`,
`login` does not return the decoded `Status` value to its caller — it fails
with the non-ok-status error raised inside `decode_result`. -/
theorem login_nonsuccess_counterexample :
    login ("serveradmin") ("secret") (Except.ok 26)
        (fun _ => Except.ok (.dataEv ("error id=520 msg=invalid\\sloginname\\sor\\spassword\n\r")))
      = .err (.nonOkStatus 520 ("invalid\\sloginname\\sor\\spassword"))
    ∧ login ("serveradmin") ("secret") (Except.ok 26)
        (fun _ => Except.ok (.dataEv ("error id=520 msg=invalid\\sloginname\\sor\\spassword\n\r")))
      ≠ .ok ⟨520, ("invalid\\sloginname\\sor\\spassword")⟩ := by
  decide

/-- C2 (amended): when the server answers login with a well-formed
non-success status (code N ≠ 0), `login` fails with the non-ok-status error
produced by `decode_result` (it never returns the status value), and the
orchestration `staff` aborts with that same propagated error — not via its
own login-failed branch — for every behaviour of the select-server
transport, i.e. `select_server` is never invoked in that run. -/
theorem login_nonsuccess_propagates (user password sidStr : String)
    (inp : NetInputs) (m : Nat) (buf : String) (pre post : List String)
    (nstr text : String) (N : Int)
    (hconn : (connect inp.connectRes inp.bannerRead).1 = .ok ())
    (hw : inp.loginWrite = .ok m)
    (hr : inp.loginRead 2 = .ok (.dataEv buf))
    (hbuf : rustLines buf = pre ++ ("error id=" ++ nstr ++ " msg=" ++ text) :: post)
    (hpre : ∀ l ∈ pre, starts_with l errorTok = false)
    (hn : parseI32 nstr = some N) (hN : N ≠ 0) :
    login user password inp.loginWrite inp.loginRead = .err (.nonOkStatus N text)
    ∧ staff user password sidStr inp = .err (.nonOkStatus N text) := by
  have hdec : decode_result buf = .err (.nonOkStatus N text) := by
    unfold decode_result
    rw [hbuf, scanLines_skip pre _ hpre, scanLines_wellformed nstr text N post hn,
      if_neg hN]
  have hlogin : login user password inp.loginWrite inp.loginRead
      = .err (.nonOkStatus N text) := by
    simp [login, require_status, write_and_read, write_data, read_data, hw, hr, hdec]
  exact ⟨hlogin, by simp [staff, hconn, hlogin]⟩

/-- Witness for C2's theorem on the concrete trace `nonSuccessInputs`. -/
theorem login_nonsuccess_propagates_witness :
    login ("u") ("p") nonSuccessInputs.loginWrite nonSuccessInputs.loginRead
      = .err (.nonOkStatus 520 ("bad"))
    ∧ staff ("u") ("p") ("0") nonSuccessInputs = .err (.nonOkStatus 520 ("bad")) :=
  login_nonsuccess_propagates ("u") ("p") ("0") nonSuccessInputs 26
    ("error id=520 msg=bad") [] [] ("520") ("bad") 520
    (by decide) rfl rfl (by decide) (by decide) (by decide) (by decide)

/-- C3: for every valid-text buffer in which no line begins with the literal
token `error `, the decoder returns `None` rather than an error. -/
theorem decode_no_error_line (buf : String)
    (h : ∀ l ∈ rustLines buf, starts_with l errorTok = false) :
    decode_result buf = .ok none := by
  have h2 := scanLines_skip (rustLines buf) [] h
  rw [List.append_nil] at h2
  exact h2

/-- Witness for C3's theorem at a concrete two-line buffer. -/
theorem decode_no_error_line_witness :
    decode_result ("hello\nworld") = .ok none :=
  decode_no_error_line ("hello\nworld") (by decide)

/-- C4: for a buffer whose first `error `-prefixed line is
`error id=notanumber msg=x`, decoding fails with the parse error
(`MalformedStatus`), rather than returning a status or `None`. -/
theorem decode_malformed_id (buf : String) (pre post : List String)
    (hbuf : rustLines buf = pre ++ ("error id=notanumber msg=x") :: post)
    (hpre : ∀ l ∈ pre, starts_with l errorTok = false) :
    decode_result buf = .err .parseError := by
  unfold decode_result
  rw [hbuf, scanLines_skip pre _ hpre]
  have h1 : starts_with ("error id=notanumber msg=x") errorTok = true := by decide
  have h2 : tryFromList ("error id=notanumber msg=x").data = .err .parseError := by
    decide
  simp only [scanLines, h1, if_true, h2]

/-- Witness for C4's theorem at the one-line buffer itself. -/
theorem decode_malformed_id_witness :
    decode_result ("error id=notanumber msg=x") = .err .parseError :=
  decode_malformed_id ("error id=notanumber msg=x") [] [] (by decide) (by decide)

/-- C5: for every user, password and server id, the login command line is
exactly `login <user> <password>` followed by the two characters `\n\r` in
that order, and the select-server command line is exactly `use <id>`
followed by `\n\r`. -/
theorem command_payload_format (user password : String) (server_id : Int) :
    (login_payload user password).data
      = ("login ").data ++ user.data ++ ' ' :: password.data ++ ['\n', '\r']
    ∧ (select_payload server_id).data
      = ("use ").data ++ (toString server_id).data ++ ['\n', '\r'] := by
  constructor
  · simp [login_payload, string_data_append]
  · simp [select_payload, string_data_append]

/-- C6: in `write_and_read`, after a successful write, a bounded read that
yields no data (timeout or no-data event) fails the exchange with the
no-response error — no retry is modelled or performed — while data received
within the bound is returned as-is. -/
theorem write_and_read_no_data (payload : String) (n : Nat)
    (r : Nat → Except Unit TelnetEvent) (timeout : Nat) :
    ((r timeout = .ok .timedOut ∨ r timeout = .ok .noData) →
      write_and_read payload (.ok n) r timeout = .err .noResponse)
    ∧ (∀ d, r timeout = .ok (.dataEv d) →
      write_and_read payload (.ok n) r timeout = .ok d) := by
  constructor
  · intro h
    rcases h with h | h <;> simp [write_and_read, write_data, read_data, h]
  · intro d h
    simp [write_and_read, write_data, read_data, h]

/-- Witness for C6's theorem: a timed-out read after a successful write. -/
theorem write_and_read_no_data_witness :
    write_and_read ("a") (.ok 1) (fun _ => Except.ok .timedOut) 2
      = .err .noResponse :=
  (write_and_read_no_data ("a") 1 (fun _ => Except.ok .timedOut) 2).1 (Or.inl rfl)

/-- C7: `connect` performs its single banner read with the 1-second bound;
a timeout or no-data outcome still yields a usable session and only sets the
warning flag, while a transport failure (I/O error or error event) makes
`connect` fail with that error wrapped in the read-content context. -/
theorem connect_banner_behavior (r : Nat → Except Unit TelnetEvent) :
    ((r 1 = .ok .timedOut ∨ r 1 = .ok .noData) →
      connect (.ok ()) r = (.ok (), true))
    ∧ (r 1 = .error () →
      connect (.ok ()) r = (.err (.readContentError .readIOError), false))
    ∧ (r 1 = .ok .errorEv →
      connect (.ok ()) r = (.err (.readContentError .eventError), false))
    ∧ (∀ d, r 1 = .ok (.dataEv d) → connect (.ok ()) r = (.ok (), false)) := by
  refine ⟨?_, ?_, ?_, ?_⟩
  · intro h
    rcases h with h | h <;> simp [connect, read_data, h]
  · intro h; simp [connect, read_data, h]
  · intro h; simp [connect, read_data, h]
  · intro d h; simp [connect, read_data, h]

/-- Witness for C7's theorem: a timed-out banner read. -/
theorem connect_banner_behavior_witness :
    connect (.ok ()) (fun _ => Except.ok .timedOut) = (.ok (), true) :=
  (connect_banner_behavior (fun _ => Except.ok .timedOut)).1 (Or.inl rfl)

/-- C8: a short write (accepted byte count different from the payload's byte
length) without an I/O error does not fail `write_data` — it only sets the
logged-anomaly flag — and the exchange proceeds to the bounded read; only a
transport I/O error makes the write step fail. -/
theorem short_write_logged (payload : String) (n : Nat)
    (hn : n ≠ payload.utf8ByteSize)
    (r : Nat → Except Unit TelnetEvent) (timeout : Nat) :
    write_data payload (.ok n) = (.ok (), true)
    ∧ write_data payload (.error ()) = (.err .writeIOError, false)
    ∧ (∀ d, r timeout = .ok (.dataEv d) →
      write_and_read payload (.ok n) r timeout = .ok d) := by
  refine ⟨?_, rfl, ?_⟩
  · simp [write_data, hn]
  · intro d h
    simp [write_and_read, write_data, read_data, h]

/-- Witness for C8's theorem: 0 of 2 bytes accepted, then a successful read. -/
theorem short_write_logged_witness :
    (0 ≠ ("ab").utf8ByteSize)
    ∧ write_and_read ("ab") (.ok 0) (fun _ => Except.ok (.dataEv ("x"))) 2
      = .ok ("x") :=
  ⟨by decide,
    (short_write_logged ("ab") 0 (by decide) (fun _ => Except.ok (.dataEv ("x"))) 2).2.2
      ("x") rfl⟩

/-- C9: on the valid-text buffer `error id0 msg0` — a line starting with
`error ` whose first field has no `=` — status decoding panics at the
`unwrap` after `split_once` (the preceding checks being debug assertions),
instead of failing with a malformed-status error. -/
theorem decode_missing_eq_panics : decode_result ("error id0 msg0") = .panic := by
  decide

/-- C10: every status that `decode_result` returns inside `Ok(Some(..))` has
code 0, and consequently the login-failed and select-failed branches of
`staff` are unreachable: `staff` never produces either error, whatever the
transport does. -/
theorem decoded_status_always_ok :
    (∀ (buf : String) (st : QueryStatus),
      decode_result buf = .ok (some st) → st.id = 0)
    ∧ (∀ (user password sid : String) (inp : NetInputs) (st : QueryStatus),
      staff user password sid inp ≠ .err (.loginFailed st)
      ∧ staff user password sid inp ≠ .err (.selectFailed st)) := by
  refine ⟨fun buf st h => scanLines_ok_some _ st h,
    fun user password sid inp st => ⟨?_, ?_⟩⟩
  · intro h
    have h2 := staff_err_shape user password sid inp _ h
    simp [staff_only] at h2
  · intro h
    have h2 := staff_err_shape user password sid inp _ h
    simp [staff_only] at h2

/-- Witness for C10's theorem at a concrete successful decode. -/
theorem decoded_status_always_ok_witness :
    (QueryStatus.mk 0 ("ok")).id = 0 :=
  decoded_status_always_ok.1 ("error id=0 msg=ok") ⟨0, "ok"⟩ (by decide)
